import Mathlib

/-!
Shallow embedding of the cart and order-placement logic of `sales.py`
(class `DatabaseManager`).  Each SQLite table becomes a list of records;
SQLite rowid assignment (`cursor.lastrowid`) becomes explicit per-table
counters in the database state; `datetime.now()` and the uuid-based
tracking-number generator become explicit parameters of the operations.
Monetary values (`DECIMAL(10,2)`) are modelled as rationals and stock and
cart quantities as integers (the schema puts no sign constraint on them).
-/

/-- Row of the `Product` table (schema lines 50-58 of `sales.py`). -/
structure Product where
  product_id : Nat
  name : String
  description : String
  price : Rat
  stock : Int
  category_id : Nat
deriving DecidableEq

/-- Row of the `Cart` table (schema lines 105-113 of `sales.py`). -/
structure CartLine where
  cart_id : Nat
  customer_id : Nat
  product_id : Nat
  quantity : Int
  added_date : Nat
deriving DecidableEq

/-- One result row of the `get_cart_items` join (`sales.py` lines 243-257):
cart line joined with the product, with `total_price = price * quantity`. -/
structure CartItem where
  cart_id : Nat
  product_id : Nat
  name : String
  price : Rat
  quantity : Int
  total_price : Rat
deriving DecidableEq

/-- Row of the `Payment` table (schema lines 61-68 of `sales.py`). -/
structure Payment where
  payment_id : Nat
  customer_id : Nat
  payment_method : String
  amount : Rat
  payment_date : Nat
deriving DecidableEq

/-- Row of the `Shipment` table (schema lines 32-41 of `sales.py`; only the
columns `create_order` fills are modelled). -/
structure Shipment where
  shipment_id : Nat
  shipment_date : Nat
  address : String
  tracking_number : String
deriving DecidableEq

/-- Row of the `Order` table (schema lines 71-82 of `sales.py`). -/
structure SalesOrder where
  order_id : Nat
  customer_id : Nat
  order_date : Nat
  total_amount : Rat
  payment_id : Nat
  shipment_id : Nat
  status : String
deriving DecidableEq

/-- Row of the `Order_Item` table (schema lines 85-93 of `sales.py`). -/
structure OrderItem where
  order_item_id : Nat
  order_id : Nat
  product_id : Nat
  quantity : Int
  unit_price : Rat
deriving DecidableEq

/-- The database state: the tables touched by the cart and order logic,
plus the rowid counter of each table that gets inserted into. -/
structure DB where
  products : List Product
  cart : List CartLine
  payments : List Payment
  shipments : List Shipment
  orders : List SalesOrder
  order_items : List OrderItem
  next_cart_id : Nat
  next_payment_id : Nat
  next_shipment_id : Nat
  next_order_id : Nat
  next_order_item_id : Nat
deriving DecidableEq

/-- The schema default of `Order.status` (`status VARCHAR(50) DEFAULT
Pending`, line 78 of `sales.py`). -/
def order_status_default : String := "Pending"

/-- Lookup of a product row by primary key, as done by the
`JOIN Product p ON c.product_id = p.product_id` in `get_cart_items`. -/
def find_product (ps : List Product) (pid : Nat) : Option Product :=
  ps.find? (fun p => p.product_id == pid)

/-- The join of `get_cart_items` (`sales.py` lines 241-257) on an explicit
cart list: keep the lines of the customer that match a product, and compute
`total_price = p.price * c.quantity` as the SQL does. -/
def cart_items_of (ps : List Product) (cid : Nat) (cart : List CartLine) : List CartItem :=
  cart.filterMap (fun c =>
    if c.customer_id == cid then
      match find_product ps c.product_id with
      | some p =>
          some ⟨c.cart_id, c.product_id, p.name, p.price, c.quantity,
                p.price * (c.quantity : Rat)⟩
      | none => none
    else none)

/-- Embedding of `DatabaseManager.get_cart_items` (`sales.py` lines 241-257). -/
def get_cart_items (db : DB) (cid : Nat) : List CartItem :=
  cart_items_of db.products cid db.cart

/-- Embedding of `DatabaseManager.add_to_cart` (`sales.py` lines 224-239): if a line for
this customer and product exists, set its quantity to the old quantity plus
`qty`; otherwise insert a fresh line.  Always returns `true`. -/
def add_to_cart (db : DB) (cid pid : Nat) (qty : Int) (now : Nat) : Bool × DB :=
  match db.cart.find? (fun c => c.customer_id == cid && c.product_id == pid) with
  | some e =>
      let new_quantity := e.quantity + qty
      (true, { db with
        cart := db.cart.map (fun c =>
          if c.cart_id == e.cart_id then { c with quantity := new_quantity } else c) })
  | none =>
      (true, { db with
        cart := db.cart ++ [⟨db.next_cart_id, cid, pid, qty, now⟩],
        next_cart_id := db.next_cart_id + 1 })

/-- The `UPDATE Product SET stock = stock - ? WHERE product_id = ?` statement
of `create_order` (`sales.py` lines 297-298). -/
def dec_stock (pid : Nat) (q : Int) (ps : List Product) : List Product :=
  ps.map (fun p => if p.product_id == pid then { p with stock := p.stock - q } else p)

/-- One iteration of the `for item in cart_items` loop of `create_order`
(`sales.py` lines 292-298): insert the order item and decrement the stock. -/
def order_item_step (ord_id : Nat) (d : DB) (it : CartItem) : DB :=
  { d with
    order_items := d.order_items ++
      [⟨d.next_order_item_id, ord_id, it.product_id, it.quantity, it.price⟩],
    next_order_item_id := d.next_order_item_id + 1,
    products := dec_stock it.product_id it.quantity d.products }

/-- The order total computed by `create_order` (`sales.py` line 272):
the sum of the joined `total_price` column over the cart items. -/
def order_total (items : List CartItem) : Rat :=
  (items.map (fun it => it.total_price)).sum

/-- Embedding of `DatabaseManager.create_order` (`sales.py` lines 264-310) on the
happy path: read the cart, return `none` on an empty cart, otherwise insert
the payment, the shipment, the order (status `Processing`), one order item
per cart item with the stock decrement, delete the cart lines of the customer,
and return the new order id.  `now` stands for `datetime.now()` and `tr`
for the generated tracking number. -/
def create_order (db : DB) (cid : Nat) (method addr : String) (now : Nat) (tr : String) :
    Option Nat × DB :=
  let items := get_cart_items db cid
  if items.isEmpty then (none, db)
  else
    let total := order_total items
    let payment_id := db.next_payment_id
    let db1 := { db with
      payments := db.payments ++ [(⟨payment_id, cid, method, total, now⟩ : Payment)],
      next_payment_id := payment_id + 1 }
    let shipment_id := db1.next_shipment_id
    let db2 := { db1 with
      shipments := db1.shipments ++ [(⟨shipment_id, now, addr, tr⟩ : Shipment)],
      next_shipment_id := shipment_id + 1 }
    let order_id := db2.next_order_id
    let db3 := { db2 with
      orders := db2.orders ++
        [(⟨order_id, cid, now, total, payment_id, shipment_id, "Processing"⟩ : SalesOrder)],
      next_order_id := order_id + 1 }
    let db4 := items.foldl (order_item_step order_id) db3
    let db5 := { db4 with cart := db4.cart.filter (fun c => !(c.customer_id == cid)) }
    (some order_id, db5)

/-- The list of SQL statements `create_order` executes inside its
transaction, as state transformers: the three header inserts, the per-item
insert plus stock update, and the cart deletion (`sales.py` lines 275-302).
The rowids captured by `cursor.lastrowid` are the counter values at the
start of the transaction, since each counter is bumped exactly once. -/
def tx_steps (db : DB) (cid : Nat) (method addr : String) (now : Nat) (tr : String)
    (items : List CartItem) : List (DB → DB) :=
  let total := order_total items
  let payment_id := db.next_payment_id
  let shipment_id := db.next_shipment_id
  let order_id := db.next_order_id
  [fun d => { d with
      payments := d.payments ++ [⟨payment_id, cid, method, total, now⟩],
      next_payment_id := d.next_payment_id + 1 },
   fun d => { d with
      shipments := d.shipments ++ [⟨shipment_id, now, addr, tr⟩],
      next_shipment_id := d.next_shipment_id + 1 },
   fun d => { d with
      orders := d.orders ++
        [⟨order_id, cid, now, total, payment_id, shipment_id, "Processing"⟩],
      next_order_id := d.next_order_id + 1 }]
  ++ items.map (fun it => fun d => order_item_step order_id d it)
  ++ [fun d => { d with cart := d.cart.filter (fun c => !(c.customer_id == cid)) }]

/-- Sequential execution of uncommitted statements on a working state. -/
def apply_steps (steps : List (DB → DB)) (db : DB) : DB :=
  steps.foldl (fun d f => f d) db

/-- SQLite `conn.rollback()` as `create_order` uses it (`sales.py` line
308): the uncommitted working state is discarded and the committed state is
restored unchanged. -/
def rollback (committed _working : DB) : DB := committed

/-- Embedding of `create_order` instrumented with a persistence-fault oracle: `failAt =
some k` makes the k-th statement of the transaction (or, at `k =
length`, the final `conn.commit()`) raise, which runs the `except` branch
of `sales.py` lines 307-310 - rollback of the partial work and `None`.
With `failAt = none` every statement and the commit succeed. -/
def create_order_tx (db : DB) (cid : Nat) (method addr : String) (now : Nat) (tr : String)
    (failAt : Option Nat) : Option Nat × DB :=
  let items := get_cart_items db cid
  if items.isEmpty then (none, db)
  else
    let steps := tx_steps db cid method addr now tr items
    match failAt with
    | some k =>
        if k ≤ steps.length then
          (none, rollback db (apply_steps (steps.take k) db))
        else (some db.next_order_id, apply_steps steps db)
    | none => (some db.next_order_id, apply_steps steps db)

/-- Stock of the product with the given id, read off the first matching
row as SQLite does on the primary key. -/
def stock_of (db : DB) (pid : Nat) : Option Int :=
  (find_product db.products pid).map (fun p => p.stock)

/-- Total quantity of a product in the cart of a customer (the quantity the
customer is ordering for that product). -/
def cart_qty_list (cart : List CartLine) (cid pid : Nat) : Int :=
  ((cart.filter (fun c => c.customer_id == cid && c.product_id == pid)).map
    (fun c => c.quantity)).sum

/-- Total quantity of a product in the cart of a customer, on a database. -/
def cart_qty (db : DB) (cid pid : Nat) : Int :=
  cart_qty_list db.cart cid pid

/-- Number of cart lines for one customer and product. -/
def cart_count (cart : List CartLine) (cid pid : Nat) : Nat :=
  (cart.filter (fun c => c.customer_id == cid && c.product_id == pid)).length

/-- The block of order-item rows `create_order` inserts for an order:
ids are assigned consecutively from the current counter, `unit_price` is
the joined `price` column of the cart item. -/
def order_items_of (ord_id k : Nat) : List CartItem → List OrderItem
  | [] => []
  | it :: rest =>
      ⟨k, ord_id, it.product_id, it.quantity, it.price⟩ :: order_items_of ord_id (k + 1) rest

/-- Stock decrements of the whole item loop. -/
def dec_stocks (items : List CartItem) (ps : List Product) : List Product :=
  items.foldl (fun acc it => dec_stock it.product_id it.quantity acc) ps

/-- Total quantity the item list orders for one product. -/
def items_qty (items : List CartItem) (pid : Nat) : Int :=
  ((items.filter (fun it => it.product_id == pid)).map (fun it => it.quantity)).sum

/-! ### Characterization of the item loop and of a successful `create_order` -/

theorem foldl_order_item_step (ord_id : Nat) (items : List CartItem) (d : DB) :
    items.foldl (order_item_step ord_id) d =
      { d with
        order_items := d.order_items ++ order_items_of ord_id d.next_order_item_id items,
        next_order_item_id := d.next_order_item_id + items.length,
        products := dec_stocks items d.products } := by
  induction items generalizing d with
  | nil => simp [order_items_of, dec_stocks]
  | cons it rest ih =>
      rw [List.foldl_cons, ih]
      cases d
      simp [order_item_step, order_items_of, dec_stocks]
      omega

theorem create_order_success (db : DB) (cid : Nat) (method addr : String) (now : Nat)
    (tr : String) (h : get_cart_items db cid ≠ []) :
    create_order db cid method addr now tr =
      (some db.next_order_id,
       { products := dec_stocks (get_cart_items db cid) db.products,
         cart := db.cart.filter (fun c => !(c.customer_id == cid)),
         payments := db.payments ++
           [⟨db.next_payment_id, cid, method, order_total (get_cart_items db cid), now⟩],
         shipments := db.shipments ++ [⟨db.next_shipment_id, now, addr, tr⟩],
         orders := db.orders ++
           [⟨db.next_order_id, cid, now, order_total (get_cart_items db cid),
             db.next_payment_id, db.next_shipment_id, "Processing"⟩],
         order_items := db.order_items ++
           order_items_of db.next_order_id db.next_order_item_id (get_cart_items db cid),
         next_cart_id := db.next_cart_id,
         next_payment_id := db.next_payment_id + 1,
         next_shipment_id := db.next_shipment_id + 1,
         next_order_id := db.next_order_id + 1,
         next_order_item_id := db.next_order_item_id + (get_cart_items db cid).length }) := by
  have h0 : (get_cart_items db cid).isEmpty = false := by
    cases hc : get_cart_items db cid with
    | nil => exact absurd hc h
    | cons a l => rfl
  simp only [create_order, h0, Bool.false_eq_true, if_false, foldl_order_item_step]

/-! ### Stock accounting -/

theorem find_product_dec_stock (pid : Nat) (q : Int) (ps : List Product) (pid2 : Nat) :
    find_product (dec_stock pid q ps) pid2 =
      (find_product ps pid2).map
        (fun p => if p.product_id == pid then { p with stock := p.stock - q } else p) := by
  have hpred : ((fun p : Product => p.product_id == pid2) ∘
      (fun p : Product => if p.product_id == pid then { p with stock := p.stock - q } else p)) =
      (fun p : Product => p.product_id == pid2) := by
    funext p
    by_cases hd : p.product_id == pid <;> simp [Function.comp, hd]
  unfold find_product dec_stock
  rw [List.find?_map, hpred]

theorem items_qty_cons (it : CartItem) (rest : List CartItem) (pid : Nat) :
    items_qty (it :: rest) pid =
      (if it.product_id == pid then it.quantity else 0) + items_qty rest pid := by
  unfold items_qty
  rw [List.filter_cons]
  by_cases hd : it.product_id == pid <;> simp [hd]

theorem find_product_dec_stocks (items : List CartItem) (ps : List Product) (pid : Nat)
    (p : Product) (h : find_product ps pid = some p) :
    find_product (dec_stocks items ps) pid =
      some { p with stock := p.stock - items_qty items pid } := by
  induction items generalizing ps p with
  | nil =>
      have h0 : items_qty [] pid = 0 := rfl
      rw [h0]
      simpa [dec_stocks] using h
  | cons it rest ih =>
      have hpid2 : p.product_id = pid := by
        have := List.find?_some (p := fun q : Product => q.product_id == pid) (a := p) h
        simpa using this
      have hfold : dec_stocks (it :: rest) ps =
          dec_stocks rest (dec_stock it.product_id it.quantity ps) := rfl
      rw [hfold, items_qty_cons]
      by_cases hd : it.product_id = pid
      · have hb : (p.product_id == it.product_id) = true := by
          simp [hpid2, hd]
        have h2 : find_product (dec_stock it.product_id it.quantity ps) pid =
            some { p with stock := p.stock - it.quantity } := by
          rw [find_product_dec_stock, h, Option.map_some', if_pos hb]
        rw [ih _ _ h2, if_pos (by simp [hd])]
        simp [Product.mk.injEq, sub_sub]
      · have hb : (p.product_id == it.product_id) = false := by
          simp [hpid2]
          omega
        have h2 : find_product (dec_stock it.product_id it.quantity ps) pid = some p := by
          rw [find_product_dec_stock, h, Option.map_some',
            if_neg (by simp only [hb]; exact Bool.false_ne_true)]
        rw [ih _ _ h2, if_neg (by simpa using hd)]
        simp

/-! ### The cart join -/

theorem cart_items_of_cons_skip (ps : List Product) (cid : Nat) (c : CartLine)
    (rest : List CartLine) (h1 : (c.customer_id == cid) = false) :
    cart_items_of ps cid (c :: rest) = cart_items_of ps cid rest := by
  have h1p : ¬ (c.customer_id = cid) := by simpa using h1
  simp [cart_items_of, List.filterMap_cons, h1p]

theorem cart_items_of_cons_none (ps : List Product) (cid : Nat) (c : CartLine)
    (rest : List CartLine) (h1 : (c.customer_id == cid) = true)
    (hfp : find_product ps c.product_id = none) :
    cart_items_of ps cid (c :: rest) = cart_items_of ps cid rest := by
  have h1p : c.customer_id = cid := by simpa using h1
  simp [cart_items_of, List.filterMap_cons, h1p, hfp]

theorem cart_items_of_cons_some (ps : List Product) (cid : Nat) (c : CartLine)
    (rest : List CartLine) (p : Product) (h1 : (c.customer_id == cid) = true)
    (hfp : find_product ps c.product_id = some p) :
    cart_items_of ps cid (c :: rest) =
      (⟨c.cart_id, c.product_id, p.name, p.price, c.quantity,
        p.price * (c.quantity : Rat)⟩ : CartItem) :: cart_items_of ps cid rest := by
  have h1p : c.customer_id = cid := by simpa using h1
  simp [cart_items_of, List.filterMap_cons, h1p, hfp]

theorem cart_qty_list_cons (c : CartLine) (rest : List CartLine) (cid pid : Nat) :
    cart_qty_list (c :: rest) cid pid =
      (if c.customer_id == cid && c.product_id == pid then c.quantity else 0) +
        cart_qty_list rest cid pid := by
  unfold cart_qty_list
  rw [List.filter_cons]
  by_cases h : (c.customer_id == cid && c.product_id == pid) = true <;> simp [h]

theorem items_qty_cart_items (ps : List Product) (cid : Nat) (cart : List CartLine)
    (pid : Nat) (hp : (find_product ps pid).isSome) :
    items_qty (cart_items_of ps cid cart) pid = cart_qty_list cart cid pid := by
  induction cart with
  | nil => rfl
  | cons c rest ih =>
      rw [cart_qty_list_cons]
      by_cases h1 : (c.customer_id == cid) = true
      · cases hfp : find_product ps c.product_id with
        | none =>
            have hne : (c.product_id == pid) = false := by
              cases hb : c.product_id == pid
              · rfl
              · exfalso
                have hcp : c.product_id = pid := by simpa using hb
                have hps : (find_product ps pid).isSome = true := hp
                rw [← hcp, hfp] at hps
                simp at hps
            rw [cart_items_of_cons_none ps cid c rest h1 hfp, ih]
            simp [hne]
        | some p =>
            rw [cart_items_of_cons_some ps cid c rest p h1 hfp, items_qty_cons, ih]
            by_cases h2 : (c.product_id == pid) = true <;> simp [h1, h2]
      · have h1f : (c.customer_id == cid) = false := by
          cases hb : c.customer_id == cid
          · rfl
          · exact absurd hb h1
        rw [cart_items_of_cons_skip ps cid c rest h1f, ih]
        simp [h1f]

theorem cart_items_mem (ps : List Product) (cid : Nat) (cart : List CartLine) (it : CartItem)
    (h : it ∈ cart_items_of ps cid cart) :
    (∃ c ∈ cart, c.customer_id = cid ∧ c.product_id = it.product_id ∧
      c.quantity = it.quantity) ∧
    ∃ p, find_product ps it.product_id = some p ∧ it.price = p.price ∧
      it.total_price = p.price * (it.quantity : Rat) := by
  unfold cart_items_of at h
  rw [List.mem_filterMap] at h
  obtain ⟨c, hc, hsome⟩ := h
  by_cases h1 : c.customer_id == cid
  · rw [if_pos h1] at hsome
    cases hfp : find_product ps c.product_id with
    | none => rw [hfp] at hsome; cases hsome
    | some p =>
        rw [hfp] at hsome
        cases hsome
        refine ⟨⟨c, hc, by simpa using h1, rfl, rfl⟩, p, hfp, rfl, rfl⟩
  · rw [if_neg h1] at hsome
    cases hsome

theorem cart_items_total_price (ps : List Product) (cid : Nat) (cart : List CartLine)
    (it : CartItem) (h : it ∈ cart_items_of ps cid cart) :
    it.total_price = it.price * (it.quantity : Rat) := by
  obtain ⟨-, p, -, hpr, htp⟩ := cart_items_mem ps cid cart it h
  rw [htp, hpr]

/-! ### The inserted order-item block -/

theorem order_items_of_map (ord_id k : Nat) (items : List CartItem) :
    (order_items_of ord_id k items).map
        (fun oi => (oi.product_id, oi.quantity, oi.unit_price)) =
      items.map (fun it => (it.product_id, it.quantity, it.price)) := by
  induction items generalizing k with
  | nil => rfl
  | cons it rest ih => simp [order_items_of, ih]

theorem order_items_of_order_id (ord_id k : Nat) (items : List CartItem) (oi : OrderItem)
    (h : oi ∈ order_items_of ord_id k items) : oi.order_id = ord_id := by
  induction items generalizing k with
  | nil => cases h
  | cons it rest ih =>
      rw [order_items_of] at h
      rcases List.mem_cons.mp h with h | h
      · rw [h]
      · exact ih _ h

theorem order_items_of_line_total (ord_id : Nat) (items : List CartItem) :
    ∀ k : Nat, (∀ it ∈ items, it.total_price = it.price * (it.quantity : Rat)) →
      ((order_items_of ord_id k items).map
          (fun oi => (oi.quantity : Rat) * oi.unit_price)).sum = order_total items := by
  induction items with
  | nil => intro k _; rfl
  | cons it rest ih =>
      intro k htp
      rw [order_items_of]
      have h1 := htp it (List.mem_cons_self it rest)
      have ih2 := ih (k + 1) (fun x hx => htp x (List.mem_cons_of_mem it hx))
      simp only [List.map_cons, List.sum_cons, ih2, order_total]
      rw [h1]
      ring

/-! ### Inversion of a successful call -/

theorem create_order_some_inv (db : DB) (cid : Nat) (method addr : String) (now : Nat)
    (tr : String) (oid : Nat) (h : (create_order db cid method addr now tr).1 = some oid) :
    get_cart_items db cid ≠ [] ∧ oid = db.next_order_id := by
  by_cases hc : get_cart_items db cid = []
  · exfalso
    simp [create_order, hc] at h
  · have hs := create_order_success db cid method addr now tr hc
    rw [hs] at h
    simp at h
    exact ⟨hc, h.symm⟩

/-- Claim C5: `create_order` on an empty cart always fails (returning the
failure indicator `none`, the concrete form of the EmptyCartError of the
spec) and has no side effects: the database, hence every table and every
stock value, is returned exactly as it was. -/
theorem create_order_empty_cart (db : DB) (cid : Nat) (method addr : String) (now : Nat)
    (tr : String) (h : get_cart_items db cid = []) :
    create_order db cid method addr now tr = (none, db) := by
  simp [create_order, h]

/-- A database with one product and an empty cart. -/
def empty_cart_db : DB :=
  { products := [⟨1, "Heattech Tee", "base layer", 1990, 100, 1⟩],
    cart := [], payments := [], shipments := [], orders := [], order_items := [],
    next_cart_id := 1, next_payment_id := 1, next_shipment_id := 1,
    next_order_id := 1, next_order_item_id := 1 }

theorem create_order_empty_cart_witness :
    create_order empty_cart_db 1 "Credit Card" "address" 0 "UNIQLO00000000" =
      (none, empty_cart_db) :=
  create_order_empty_cart empty_cart_db 1 "Credit Card" "address" 0 "UNIQLO00000000" rfl

/-- Claim C7: after every successful `create_order` the cart of the customer is
empty - no cart line of that customer survives. -/
theorem create_order_clears_cart (db : DB) (cid : Nat) (method addr : String) (now : Nat)
    (tr : String) (oid : Nat) (h : (create_order db cid method addr now tr).1 = some oid) :
    ∀ c ∈ (create_order db cid method addr now tr).2.cart, c.customer_id ≠ cid := by
  obtain ⟨hne, -⟩ := create_order_some_inv db cid method addr now tr oid h
  rw [create_order_success db cid method addr now tr hne]
  intro c hc
  have hm := List.mem_filter.mp hc
  simpa using hm.2

/-- A database with one product and one cart line used to witness the
successful-order theorems: stock 5, price 1990, customer 1 orders 3. -/
def happy_db : DB :=
  { products := [⟨1, "Down Jacket", "light", 1990, 5, 1⟩],
    cart := [⟨1, 1, 1, 3, 0⟩],
    payments := [], shipments := [], orders := [], order_items := [],
    next_cart_id := 2, next_payment_id := 1, next_shipment_id := 1,
    next_order_id := 1, next_order_item_id := 1 }

theorem create_order_clears_cart_witness :
    ((create_order happy_db 1 "PayPal" "addr" 0 "UNIQLOAAAA1111").2.cart.all
      (fun c => !(c.customer_id == 1))) = true := by
  have h := create_order_clears_cart happy_db 1 "PayPal" "addr" 0 "UNIQLOAAAA1111" 1
    (by decide)
  rw [List.all_eq_true]
  intro c hc
  simpa using h c hc

/-- Claim C9: every order created by `create_order` has status `Processing`,
which differs from the schema default `Pending`. -/
theorem create_order_status_processing (db : DB) (cid : Nat) (method addr : String)
    (now : Nat) (tr : String) (oid : Nat)
    (h : (create_order db cid method addr now tr).1 = some oid) :
    ∃ o : SalesOrder, (create_order db cid method addr now tr).2.orders = db.orders ++ [o] ∧
      o.order_id = oid ∧ o.status = "Processing" ∧ o.status ≠ order_status_default := by
  obtain ⟨hne, hoid⟩ := create_order_some_inv db cid method addr now tr oid h
  rw [create_order_success db cid method addr now tr hne]
  exact ⟨⟨db.next_order_id, cid, now, order_total (get_cart_items db cid),
          db.next_payment_id, db.next_shipment_id, "Processing"⟩,
    rfl, hoid.symm, rfl, by simp [order_status_default]⟩

theorem create_order_status_processing_witness :
    ((create_order happy_db 1 "Debit Card" "addr" 0 "UNIQLOBBBB2222").2.orders.map
      (fun o => o.status)) = ["Processing"] ∧
    "Processing" ≠ order_status_default := by
  obtain ⟨o, ho, -, hst, -⟩ :=
    create_order_status_processing happy_db 1 "Debit Card" "addr" 0 "UNIQLOBBBB2222" 1
      (by decide)
  constructor
  · rw [ho, show happy_db.orders = [] from rfl]
    simp [hst]
  · simp [order_status_default]

/-- Claim C6: for every order created by a successful `create_order`, the
field `total_amount` of the order equals the sum over its order items of
`quantity * unit_price`, and the `amount` of the payment row equals the same
total. -/
theorem create_order_total_consistent (db : DB) (cid : Nat) (method addr : String)
    (now : Nat) (tr : String) (oid : Nat)
    (h : (create_order db cid method addr now tr).1 = some oid) :
    ∃ (o : SalesOrder) (pay : Payment) (L : List OrderItem),
      (create_order db cid method addr now tr).2.orders = db.orders ++ [o] ∧
      (create_order db cid method addr now tr).2.payments = db.payments ++ [pay] ∧
      (create_order db cid method addr now tr).2.order_items = db.order_items ++ L ∧
      o.order_id = oid ∧ (∀ oi ∈ L, oi.order_id = oid) ∧
      o.total_amount = (L.map (fun oi => (oi.quantity : Rat) * oi.unit_price)).sum ∧
      pay.amount = o.total_amount := by
  obtain ⟨hne, hoid⟩ := create_order_some_inv db cid method addr now tr oid h
  rw [create_order_success db cid method addr now tr hne]
  refine ⟨⟨db.next_order_id, cid, now, order_total (get_cart_items db cid),
          db.next_payment_id, db.next_shipment_id, "Processing"⟩,
        ⟨db.next_payment_id, cid, method, order_total (get_cart_items db cid), now⟩,
        order_items_of db.next_order_id db.next_order_item_id (get_cart_items db cid),
        rfl, rfl, rfl, hoid.symm, ?_, ?_, rfl⟩
  · intro oi hoi
    rw [hoid]
    exact order_items_of_order_id db.next_order_id db.next_order_item_id
      (get_cart_items db cid) oi hoi
  · have htp : ∀ it ∈ get_cart_items db cid,
        it.total_price = it.price * (it.quantity : Rat) := by
      intro it hit
      exact cart_items_total_price db.products cid db.cart it hit
    exact (order_items_of_line_total db.next_order_id (get_cart_items db cid)
      db.next_order_item_id htp).symm

theorem create_order_total_consistent_witness :
    ((create_order happy_db 1 "Credit Card" "addr" 0 "UNIQLOCCCC3333").2.orders.map
        (fun o => o.total_amount)) =
      [((create_order happy_db 1 "Credit Card" "addr" 0 "UNIQLOCCCC3333").2.order_items.map
          (fun oi => (oi.quantity : Rat) * oi.unit_price)).sum] ∧
    ((create_order happy_db 1 "Credit Card" "addr" 0 "UNIQLOCCCC3333").2.payments.map
        (fun pay => pay.amount)) =
      ((create_order happy_db 1 "Credit Card" "addr" 0 "UNIQLOCCCC3333").2.orders.map
        (fun o => o.total_amount)) := by
  obtain ⟨o, pay, L, ho, hp, hl, -, -, htot, hpay⟩ :=
    create_order_total_consistent happy_db 1 "Credit Card" "addr" 0 "UNIQLOCCCC3333" 1
      (by decide)
  rw [ho, hp, hl, show happy_db.orders = [] from rfl,
    show happy_db.payments = [] from rfl, show happy_db.order_items = [] from rfl]
  simp [htot, hpay]

/-- Claim C1: a successful `create_order` decrements the stock of each product by
exactly the total quantity the cart of the customer orders for that product, and
appends exactly one order item per cart line, whose quantity is the quantity
of the line and whose `unit_price` is the price of the product at the time of the
call. -/
theorem create_order_stock_and_items (db : DB) (cid : Nat) (method addr : String)
    (now : Nat) (tr : String) (oid : Nat)
    (h : (create_order db cid method addr now tr).1 = some oid) :
    (∀ (pid : Nat) (p : Product), find_product db.products pid = some p →
        stock_of (create_order db cid method addr now tr).2 pid =
          some (p.stock - cart_qty db cid pid)) ∧
    ∃ L : List OrderItem,
      (create_order db cid method addr now tr).2.order_items = db.order_items ++ L ∧
      L.map (fun oi => (oi.product_id, oi.quantity, oi.unit_price)) =
        (get_cart_items db cid).map (fun it => (it.product_id, it.quantity, it.price)) ∧
      (∀ oi ∈ L, oi.order_id = oid) ∧
      (∀ it ∈ get_cart_items db cid,
        (∃ c ∈ db.cart, c.customer_id = cid ∧ c.product_id = it.product_id ∧
          c.quantity = it.quantity) ∧
        ∃ p, find_product db.products it.product_id = some p ∧ it.price = p.price) := by
  obtain ⟨hne, hoid⟩ := create_order_some_inv db cid method addr now tr oid h
  rw [create_order_success db cid method addr now tr hne]
  constructor
  · intro pid p hp
    unfold stock_of
    have hd := find_product_dec_stocks (get_cart_items db cid) db.products pid p hp
    simp only at hd ⊢
    rw [hd, Option.map_some']
    have hq := items_qty_cart_items db.products cid db.cart pid
      (by rw [hp]; rfl)
    rw [show items_qty (cart_items_of db.products cid db.cart) pid =
          items_qty (get_cart_items db cid) pid from rfl] at hq
    rw [hq]
    rfl
  · refine ⟨order_items_of db.next_order_id db.next_order_item_id (get_cart_items db cid),
      rfl, order_items_of_map db.next_order_id db.next_order_item_id (get_cart_items db cid),
      ?_, ?_⟩
    · intro oi hoi
      rw [hoid]
      exact order_items_of_order_id db.next_order_id db.next_order_item_id
        (get_cart_items db cid) oi hoi
    · intro it hit
      obtain ⟨hline, p, hp, hpr, -⟩ := cart_items_mem db.products cid db.cart it hit
      exact ⟨hline, p, hp, hpr⟩

theorem create_order_stock_and_items_witness :
    stock_of (create_order happy_db 1 "Cash on Delivery" "addr" 0 "UNIQLODDDD4444").2 1 =
      some ((5 : Int) - cart_qty happy_db 1 1) :=
  (create_order_stock_and_items happy_db 1 "Cash on Delivery" "addr" 0 "UNIQLODDDD4444" 1
    (by decide)).1 1 ⟨1, "Down Jacket", "light", 1990, 5, 1⟩ (by decide)

/-! ### Atomicity of the transaction -/

theorem apply_tx_steps (db : DB) (cid : Nat) (method addr : String) (now : Nat)
    (tr : String) (hc : get_cart_items db cid ≠ []) :
    (some db.next_order_id,
      apply_steps (tx_steps db cid method addr now tr (get_cart_items db cid)) db) =
      create_order db cid method addr now tr := by
  rw [create_order_success db cid method addr now tr hc]
  unfold apply_steps tx_steps
  rw [List.foldl_append, List.foldl_append]
  simp only [List.foldl_cons, List.foldl_nil, List.foldl_map, foldl_order_item_step]

/-- Claim C2: `create_order` is all-or-nothing.  Whatever statement of the
transaction a simulated persistence fault hits (including the final commit),
the call returns the failure indicator with the database exactly as before
the call; and when no fault fires the result is exactly the fully applied
successful `create_order`, which is then a successful call. -/
theorem create_order_atomic (db : DB) (cid : Nat) (method addr : String) (now : Nat)
    (tr : String) (failAt : Option Nat) :
    create_order_tx db cid method addr now tr failAt = (none, db) ∨
    (create_order_tx db cid method addr now tr failAt =
        create_order db cid method addr now tr ∧
      (create_order db cid method addr now tr).1.isSome = true) := by
  by_cases hc : get_cart_items db cid = []
  · left
    simp [create_order_tx, hc]
  · have hsome : (create_order db cid method addr now tr).1.isSome = true := by
      rw [create_order_success db cid method addr now tr hc]
      rfl
    have hne : (get_cart_items db cid).isEmpty = false := by
      cases hcc : get_cart_items db cid with
      | nil => exact absurd hcc hc
      | cons a l => rfl
    cases failAt with
    | none =>
        right
        refine ⟨?_, hsome⟩
        show (if (get_cart_items db cid).isEmpty then ((none : Option Nat), db)
          else (some db.next_order_id,
            apply_steps (tx_steps db cid method addr now tr (get_cart_items db cid)) db)) =
          create_order db cid method addr now tr
        rw [hne]
        simpa using apply_tx_steps db cid method addr now tr hc
    | some k =>
        by_cases hk : k ≤ (tx_steps db cid method addr now tr (get_cart_items db cid)).length
        · left
          simp [create_order_tx, hne, hk, rollback]
        · right
          refine ⟨?_, hsome⟩
          have hk2 : ¬ k ≤ (tx_steps db cid method addr now tr (get_cart_items db cid)).length :=
            hk
          simp only [create_order_tx, hne, Bool.false_eq_true, if_false, hk2]
          simpa using apply_tx_steps db cid method addr now tr hc

/-! ### Merge behaviour of `add_to_cart` -/

theorem cart_count_map_update (cart : List CartLine) (cid pid eid : Nat) (v : Int) :
    cart_count (cart.map (fun c =>
        if c.cart_id == eid then { c with quantity := v } else c)) cid pid =
      cart_count cart cid pid := by
  unfold cart_count
  rw [List.filter_map, List.length_map]
  have hpp : ((fun c : CartLine => c.customer_id == cid && c.product_id == pid) ∘ (fun c =>
      if c.cart_id == eid then { c with quantity := v } else c)) =
      (fun c : CartLine => c.customer_id == cid && c.product_id == pid) := by
    funext c
    by_cases hd : c.cart_id == eid <;> simp [Function.comp, hd]
  rw [hpp]

theorem cart_qty_map_update (cart : List CartLine) (cid pid : Nat) (e : CartLine) (v : Int)
    (hnd : (cart.map (fun c => c.cart_id)).Nodup) (he : e ∈ cart)
    (hpred : (e.customer_id == cid && e.product_id == pid) = true) :
    cart_qty_list (cart.map (fun c =>
        if c.cart_id == e.cart_id then { c with quantity := v } else c)) cid pid =
      cart_qty_list cart cid pid - e.quantity + v := by
  induction cart with
  | nil => cases he
  | cons c rest ih =>
      rw [List.map_cons, List.nodup_cons] at hnd
      obtain ⟨hnd1, hnd2⟩ := hnd
      rw [List.map_cons]
      rcases List.mem_cons.mp he with rfl | he2
      · have hrest : rest.map (fun x =>
            if x.cart_id == e.cart_id then { x with quantity := v } else x) = rest := by
          have hid : rest.map (fun x =>
              if x.cart_id == e.cart_id then { x with quantity := v } else x) =
              rest.map (fun x => x) := by
            apply List.map_congr_left
            intro x hx
            have hxne : x.cart_id ≠ e.cart_id := by
              intro hxc
              exact hnd1 (hxc ▸ List.mem_map_of_mem (fun c => c.cart_id) hx)
            simp [fun h => hxne (by simpa using h)]
          rw [hid, List.map_id']
        have hself : ((if e.cart_id == e.cart_id then { e with quantity := v } else e)
            : CartLine) = { e with quantity := v } := by simp
        rw [hself, hrest, cart_qty_list_cons, cart_qty_list_cons]
        have hpu : (({ e with quantity := v } : CartLine).customer_id == cid &&
            ({ e with quantity := v } : CartLine).product_id == pid) = true := hpred
        rw [if_pos hpu, if_pos hpred,
          show (({ e with quantity := v } : CartLine)).quantity = v from rfl]
        omega
      · have hce : (c.cart_id == e.cart_id) = false := by
          cases hb : c.cart_id == e.cart_id
          · rfl
          · exfalso
            have hmem : e.cart_id ∈ rest.map (fun c => c.cart_id) :=
              List.mem_map_of_mem (fun c => c.cart_id) he2
            have hcc : c.cart_id = e.cart_id := by simpa using hb
            exact hnd1 (hcc ▸ hmem)
        have hcu : ((if c.cart_id == e.cart_id then { c with quantity := v } else c)
            : CartLine) = c := by simp [hce]
        rw [hcu, cart_qty_list_cons, cart_qty_list_cons, ih hnd2 he2]
        omega

/-- Claim C8: `add_to_cart` merges by increment: the total cart quantity of the customer for the product always grows by exactly `qty`, and the number of
cart lines for (customer, product) stays the same when a line existed and
becomes one when none did (so no second line is ever created).  In
particular, adding the same product twice with quantities 2 and 3 to a
fresh cart yields exactly one line with quantity 5.  The hypothesis is the
`cart_id` primary-key constraint of the `Cart` table. -/
theorem add_to_cart_merges (db : DB) (cid pid : Nat) (q : Int) (now : Nat)
    (hnd : (db.cart.map (fun c => c.cart_id)).Nodup) :
    (cart_qty_list (add_to_cart db cid pid q now).2.cart cid pid =
      cart_qty_list db.cart cid pid + q ∧
    cart_count (add_to_cart db cid pid q now).2.cart cid pid =
      max (cart_count db.cart cid pid) 1) ∧
    (add_to_cart (add_to_cart empty_cart_db 1 1 2 0).2 1 1 3 0).2.cart =
      [⟨1, 1, 1, 5, 0⟩] := by
  refine ⟨?_, by decide⟩
  cases hfind : db.cart.find? (fun c => c.customer_id == cid && c.product_id == pid) with
  | some e =>
      have hpred : (e.customer_id == cid && e.product_id == pid) = true :=
        List.find?_some (p := fun c : CartLine => c.customer_id == cid && c.product_id == pid)
          (a := e) hfind
      have he : e ∈ db.cart := List.mem_of_find?_eq_some hfind
      have hmem : e ∈ db.cart.filter (fun c => c.customer_id == cid && c.product_id == pid) :=
        List.mem_filter.mpr ⟨he, hpred⟩
      have hpos : 1 ≤ cart_count db.cart cid pid := List.length_pos_of_mem hmem
      simp only [add_to_cart, hfind]
      constructor
      · rw [cart_qty_map_update db.cart cid pid e (e.quantity + q) hnd he hpred]
        omega
      · rw [cart_count_map_update db.cart cid pid e.cart_id (e.quantity + q)]
        exact (Nat.max_eq_left hpos).symm
  | none =>
      have hnone : ∀ x ∈ db.cart, ¬ ((x.customer_id == cid && x.product_id == pid) = true) := by
        intro x hx
        simpa using List.find?_eq_none.mp hfind x hx
      have hfil : db.cart.filter (fun c => c.customer_id == cid && c.product_id == pid) = [] :=
        List.filter_eq_nil_iff.mpr hnone
      simp only [add_to_cart, hfind]
      unfold cart_qty_list cart_count
      rw [List.filter_append, hfil]
      constructor
      · simp
      · simp

theorem add_to_cart_merges_witness :
    cart_qty_list (add_to_cart happy_db 1 1 4 0).2.cart 1 1 =
      cart_qty_list happy_db.cart 1 1 + 4 ∧
    cart_count (add_to_cart happy_db 1 1 4 0).2.cart 1 1 =
      max (cart_count happy_db.cart 1 1) 1 :=
  ⟨((add_to_cart_merges happy_db 1 1 4 0 (by decide)).1).1,
   ((add_to_cart_merges happy_db 1 1 4 0 (by decide)).1).2⟩

/-- Claim C10: `add_to_cart` returns `True` on every input - it validates
nothing - and when no line for (customer, product) exists it inserts the
line as given, including for zero or negative quantity and for a product id
that no Product row carries. -/
theorem add_to_cart_always_true (db : DB) (cid pid : Nat) (q : Int) (now : Nat) :
    (add_to_cart db cid pid q now).1 = true ∧
    (db.cart.find? (fun c => c.customer_id == cid && c.product_id == pid) = none →
      (add_to_cart db cid pid q now).2.cart =
        db.cart ++ [⟨db.next_cart_id, cid, pid, q, now⟩]) := by
  constructor
  · cases hfind : db.cart.find? (fun c => c.customer_id == cid && c.product_id == pid) <;>
      simp [add_to_cart, hfind]
  · intro hfind
    simp [add_to_cart, hfind]

theorem add_to_cart_always_true_witness :
    (add_to_cart empty_cart_db 1 99 (-3) 0).1 = true ∧
    (add_to_cart empty_cart_db 1 99 (-3) 0).2.cart =
      empty_cart_db.cart ++ [⟨1, 1, 99, -3, 0⟩] ∧
    find_product empty_cart_db.products 99 = none :=
  ⟨(add_to_cart_always_true empty_cart_db 1 99 (-3) 0).1,
   (add_to_cart_always_true empty_cart_db 1 99 (-3) 0).2 rfl, rfl⟩

/-! ### The missing stock guard -/

/-- The failing input of claim C3: one product with stock 2, and the
cart of the customer orders 3 units of it. -/
def low_stock_db : DB :=
  { products := [⟨1, "Cashmere Sweater", "soft", 9990, 2, 2⟩],
    cart := [⟨1, 1, 1, 3, 0⟩],
    payments := [], shipments := [], orders := [], order_items := [],
    next_cart_id := 2, next_payment_id := 1, next_shipment_id := 1,
    next_order_id := 1, next_order_item_id := 1 }

/-- Claim C3 evidence: with stock 2 and cart quantity 3, `create_order`
does not fail at all - it returns a fresh order id, creates an order row,
and drives the stock to -1.  No insufficient-stock check exists in the
code. -/
theorem create_order_no_stock_guard :
    (create_order low_stock_db 1 "Credit Card" "addr" 0 "UNIQLOEEEE5555").1 = some 1 ∧
    (create_order low_stock_db 1 "Credit Card" "addr" 0 "UNIQLOEEEE5555").2.orders.length
      = 1 ∧
    stock_of (create_order low_stock_db 1 "Credit Card" "addr" 0 "UNIQLOEEEE5555").2 1 =
      some (-1) := by
  refine ⟨by decide, by decide, by decide⟩

/-- The failing input of claim C4: a catalog whose stocks are all
non-negative, with stock 2 for the ordered product and 3 units in the
cart. -/
def neg_stock_db : DB :=
  { products := [⟨2, "Smart Pants", "stretch", 4990, 2, 1⟩],
    cart := [⟨1, 5, 2, 3, 0⟩],
    payments := [], shipments := [], orders := [], order_items := [],
    next_cart_id := 2, next_payment_id := 1, next_shipment_id := 1,
    next_order_id := 1, next_order_item_id := 1 }

/-- Claim C4 evidence: the stock-nonnegativity invariant is not preserved:
starting from a database whose stocks are all non-negative, the stock
decrement of `create_order` produces a product row with negative stock. -/
theorem create_order_breaks_stock_invariant :
    (∀ p ∈ neg_stock_db.products, 0 ≤ p.stock) ∧
    ∃ p ∈ (create_order neg_stock_db 5 "Cash on Delivery" "addr" 0 "UNIQLOFFFF6666").2.products,
      p.stock < 0 := by
  refine ⟨by decide, by decide⟩
